import Mathlib

/-!
Shallow embedding of the simulation core of `kerplunk.py` (the lane-traffic
avoidance game): the `Game` state container, the spawner, the motion and ramp
engine, and the collision and scoring judge, all as executable Lean
definitions over exact rational arithmetic.  Randomness is modelled by passing
the drawn values (`SpawnRand`) explicitly; the support of each draw is stated
as a hypothesis where a theorem needs it.
-/

namespace Kerplunk

/-- Number of lanes (`LANE_COUNT = 5` in the source). -/
def LANE_COUNT : ℕ := 5

/-- The fixed set of visual car glyphs (`CAR_CHARS`). -/
def CAR_CHARS : List String := ["<#>", "[=]", "<o>"]

/-- Base spawn interval in seconds (`SPAWN_INTERVAL = 0.8`). -/
def SPAWN_INTERVAL : ℚ := 4/5

/-- Maximum initial distance of a freshly spawned car (`INITIAL_DISTANCE_MAX = 8`). -/
def INITIAL_DISTANCE_MAX : ℚ := 8

/-- Per-lane base speeds in rows per second (`BASE_LANE_SPEEDS = [0.9, 1.2, 1.6, 1.0, 1.4]`). -/
def BASE_LANE_SPEEDS : List ℚ := [9/10, 6/5, 8/5, 1, 7/5]

/-- Python `int()` applied to a real number: truncation toward zero. -/
def pytrunc (q : ℚ) : ℤ := if 0 ≤ q then ⌊q⌋ else ⌈q⌉

/-- Python 3 `round()` applied to a real number: round to the nearest
integer, ties to the even neighbour. -/
def pyround (q : ℚ) : ℤ :=
  if q - ⌊q⌋ = 1/2 then (if 2 ∣ ⌊q⌋ then ⌊q⌋ else ⌊q⌋ + 1) else round q

/-- A car (`class Car`): lane index, row coordinate `y`, and the index of its
glyph in `CAR_CHARS`. -/
structure Car where
  lane : ℕ
  y : ℚ
  art : ℕ
deriving DecidableEq

/-- The simulation state: the fields of `Game.__init__` that the simulation
core reads or writes (`height` stands for the field height used by
`player_row`; the rendering-only fields are omitted). -/
@[ext] structure Game where
  height : ℕ
  spawnTimer : ℚ
  cars : List Car
  passed : ℕ
  globalSpeed : ℚ
  playerLane : ℕ
  running : Bool
  score : ℕ
deriving DecidableEq

/-- The values drawn from the pseudorandom source by one (potential) spawn:
`random.randrange(0, LANE_COUNT)`, the index drawn by `random.choice(CAR_CHARS)`,
`random.uniform(0.0, INITIAL_DISTANCE_MAX)`, and the
`random.uniform(spawn_interval * 0.6, spawn_interval * 1.4)` timer reset. -/
structure SpawnRand where
  lane : ℕ
  art : ℕ
  dist : ℚ
  timer : ℚ
deriving DecidableEq

/-- The support of the random draws used by `spawn_car`: `randrange` yields a
lane in `[0, LANE_COUNT)`, `choice` an index into `CAR_CHARS`, and
`uniform(0.0, INITIAL_DISTANCE_MAX)` a distance in `[0, INITIAL_DISTANCE_MAX]`. -/
def SpawnRand.Valid (r : SpawnRand) : Prop :=
  r.lane < LANE_COUNT ∧ r.art < CAR_CHARS.length ∧
    0 ≤ r.dist ∧ r.dist ≤ INITIAL_DISTANCE_MAX

instance (r : SpawnRand) : Decidable r.Valid := by
  unfold SpawnRand.Valid; infer_instance

/-- `Game.spawn_car`: the car built from one set of random draws; its `y` is
the negated distance. -/
def mkCar (r : SpawnRand) : Car := ⟨r.lane, -r.dist, r.art⟩

/-- `Game.player_row`: `self.height - 3`. -/
def playerRow (g : Game) : ℤ := (g.height : ℤ) - 3

/-- The spawn interval computed each tick:
`max(0.15, SPAWN_INTERVAL / (self.global_speed * 0.9))`. -/
def spawnInterval (gs : ℚ) : ℚ := max (3/20) (SPAWN_INTERVAL / (gs * (9/10)))

/-- The spawn phase of `Game.update` (lines 96-100): decrement the timer by
`dt`; if the decremented timer is `≤ 0`, reset it to the drawn value and
append one new car. Returns the new timer and the car list. -/
def spawnPhase (g : Game) (dt : ℚ) (r : SpawnRand) : ℚ × List Car :=
  let t := g.spawnTimer - dt
  if t ≤ 0 then (r.timer, g.cars ++ [mkCar r]) else (t, g.cars)

/-- One step of the motion engine: `car.y += lane_speeds[car.lane] * dt`. -/
def moveCar (laneSpeeds : List ℚ) (dt : ℚ) (c : Car) : Car :=
  { c with y := c.y + laneSpeeds.getD c.lane 0 * dt }

/-- The car list after the spawn phase and the motion phase of one tick, with
`lane_speeds = [s * self.global_speed for s in BASE_LANE_SPEEDS]` computed
from the entering global speed. -/
def movedCars (g : Game) (dt : ℚ) (r : SpawnRand) : List Car :=
  ((spawnPhase g dt r).2).map
    (moveCar (BASE_LANE_SPEEDS.map (fun s => s * g.globalSpeed)) dt)

/-- Pass detection for one car: `int(car.y) >= self.player_row() + 1`. -/
def passCond (pr : ℤ) (c : Car) : Bool := decide (pr + 1 ≤ pytrunc c.y)

/-- Collision detection for one car:
`int(round(car.y)) == self.player_row() and car.lane == self.player_lane`. -/
def collideCond (pr : ℤ) (lane : ℕ) (c : Car) : Bool :=
  decide (pyround c.y = pr) && decide (c.lane = lane)

/-- What one passing car does to `(passed, score, global_speed)`:
increment `passed` and `score`; if the new `passed` is a multiple of 10,
multiply `global_speed` by `1.22`. -/
def rampStep (acc : ℕ × ℕ × ℚ) : ℕ × ℕ × ℚ :=
  (acc.1 + 1, acc.2.1 + 1,
    if (acc.1 + 1) % 10 = 0 then acc.2.2 * (61/50) else acc.2.2)

/-- The scoring part of the move loop of `Game.update` (lines 105-115),
folded over the moved cars in order. -/
def scorePass (pr : ℤ) (cars : List Car) (acc : ℕ × ℕ × ℚ) : ℕ × ℕ × ℚ :=
  cars.foldl (fun a c => if passCond pr c then rampStep a else a) acc

/-- `Game.update` (lines 94-125): spawn phase, motion, pass detection with
scoring and ramp, removal of the passed cars, then collision detection on the
remaining cars.  The removal loop removes exactly the cars collected in
`to_remove`, so the surviving list is the filter of the moved list. -/
def update (g : Game) (dt : ℚ) (r : SpawnRand) : Game :=
  let pr := playerRow g
  let moved := movedCars g dt r
  let psg := scorePass pr moved (g.passed, g.score, g.globalSpeed)
  let remaining := moved.filter (fun c => !(passCond pr c))
  { g with
    spawnTimer := (spawnPhase g dt r).1,
    cars := remaining,
    passed := psg.1,
    score := psg.2.1,
    globalSpeed := psg.2.2,
    running := g.running && !(remaining.any (collideCond pr g.playerLane)) }

/-- One tick of the simulation engine: write the player lane supplied by the
driver into the state (the source does this in `handle_input` just before
`update`), then run `Game.update`. -/
def tick (g : Game) (dt : ℚ) (lane : ℕ) (r : SpawnRand) : Game :=
  update { g with playerLane := lane } dt r

/-- The initial state: `Game.__init__` (`spawn_timer = 0`, `passed = 0`,
`global_speed = 1.0`, `player_lane = LANE_COUNT // 2`, `running = True`,
`score = 0`) followed by the six seeding `spawn_car()` calls at the top of
`Game.loop`, one per element of `rs`. -/
def initGame (h : ℕ) (rs : List SpawnRand) : Game :=
  { height := h, spawnTimer := 0, cars := rs.map mkCar, passed := 0,
    globalSpeed := 1, playerLane := LANE_COUNT / 2, running := true, score := 0 }

/-- States reachable from some initial state by a sequence of ticks. -/
inductive Reachable : Game → Prop where
  | start (h : ℕ) (rs : List SpawnRand) : Reachable (initGame h rs)
  | step (g : Game) (dt : ℚ) (lane : ℕ) (r : SpawnRand) :
      Reachable g → Reachable (tick g dt lane r)

/-- A fixed sample of random draws, used for concrete evaluations. -/
def sampleRand : SpawnRand := ⟨0, 0, 0, 1⟩

example : pytrunc (53/5) = 10 := by norm_num [pytrunc]
example : pyround (48/5) = 10 := by norm_num [pyround, round_eq]
example : pyround (53/5) = 11 := by norm_num [pyround, round_eq]
example : pyround (-3/5) = -1 := by norm_num [pyround, round_eq]
example : pyround (-1/2) = 0 := by norm_num [pyround, round_eq]
example : pyround (5/2) = 2 := by norm_num [pyround]
example : pyround (3/2) = 2 := by norm_num [pyround]

/-! ## Projection lemmas for `tick`

Each holds by unfolding `tick` and `update`; the lane written by `tick`
does not enter the spawn, motion or scoring phases. -/

theorem tick_height (g : Game) (dt : ℚ) (lane : ℕ) (r : SpawnRand) :
    (tick g dt lane r).height = g.height := rfl

theorem tick_playerLane (g : Game) (dt : ℚ) (lane : ℕ) (r : SpawnRand) :
    (tick g dt lane r).playerLane = lane := rfl

theorem tick_spawnTimer (g : Game) (dt : ℚ) (lane : ℕ) (r : SpawnRand) :
    (tick g dt lane r).spawnTimer = (spawnPhase g dt r).1 := rfl

theorem tick_cars (g : Game) (dt : ℚ) (lane : ℕ) (r : SpawnRand) :
    (tick g dt lane r).cars
      = (movedCars g dt r).filter (fun c => !(passCond (playerRow g) c)) := rfl

theorem tick_passed (g : Game) (dt : ℚ) (lane : ℕ) (r : SpawnRand) :
    (tick g dt lane r).passed
      = (scorePass (playerRow g) (movedCars g dt r)
          (g.passed, g.score, g.globalSpeed)).1 := rfl

theorem tick_score (g : Game) (dt : ℚ) (lane : ℕ) (r : SpawnRand) :
    (tick g dt lane r).score
      = (scorePass (playerRow g) (movedCars g dt r)
          (g.passed, g.score, g.globalSpeed)).2.1 := rfl

theorem tick_globalSpeed (g : Game) (dt : ℚ) (lane : ℕ) (r : SpawnRand) :
    (tick g dt lane r).globalSpeed
      = (scorePass (playerRow g) (movedCars g dt r)
          (g.passed, g.score, g.globalSpeed)).2.2 := rfl

theorem tick_running (g : Game) (dt : ℚ) (lane : ℕ) (r : SpawnRand) :
    (tick g dt lane r).running
      = (g.running &&
          !(((movedCars g dt r).filter (fun c => !(passCond (playerRow g) c))).any
              (collideCond (playerRow g) lane))) := rfl

/-! ## The scoring fold

`scorePass` increments `passed` and `score` by the number of passing cars and
multiplies the global speed by `1.22` once for each multiple of 10 that
`passed` reaches along the way. -/

theorem scorePass_nil (pr : ℤ) (acc : ℕ × ℕ × ℚ) : scorePass pr [] acc = acc := rfl

theorem scorePass_cons (pr : ℤ) (c : Car) (l : List Car) (acc : ℕ × ℕ × ℚ) :
    scorePass pr (c :: l) acc
      = scorePass pr l (if passCond pr c then rampStep acc else acc) := rfl

theorem scorePass_eq (pr : ℤ) (l : List Car) (p s : ℕ) (gs : ℚ) :
    scorePass pr l (p, s, gs)
      = (p + l.countP (passCond pr), s + l.countP (passCond pr),
         gs * (61/50) ^ ((p + l.countP (passCond pr)) / 10 - p / 10)) := by
  induction l generalizing p s gs with
  | nil => simp [scorePass_nil]
  | cons c l ih =>
    rw [scorePass_cons]
    by_cases hc : passCond pr c
    · rw [if_pos hc, List.countP_cons_of_pos _ _ hc]
      rw [show rampStep (p, s, gs)
            = (p + 1, s + 1, if (p + 1) % 10 = 0 then gs * (61/50) else gs) from rfl]
      rw [ih]
      simp only [Prod.mk.injEq]
      refine ⟨by omega, by omega, ?_⟩
      by_cases hd : (p + 1) % 10 = 0
      · have h1 : (p + 1) / 10 = p / 10 + 1 := by omega
        have h2 : (p + 1) / 10 ≤ (p + 1 + l.countP (passCond pr)) / 10 := by omega
        have h3 : (p + 1 + l.countP (passCond pr)) / 10 - p / 10
            = ((p + 1 + l.countP (passCond pr)) / 10 - (p + 1) / 10) + 1 := by omega
        simp only [if_pos hd]
        rw [show p + (l.countP (passCond pr) + 1) = p + 1 + l.countP (passCond pr) by omega,
          h3, pow_succ]
        ring
      · have h1 : (p + 1) / 10 = p / 10 := by omega
        simp only [if_neg hd]
        rw [show p + (l.countP (passCond pr) + 1) = p + 1 + l.countP (passCond pr) by omega,
          h1]
    · rw [if_neg hc, List.countP_cons_of_neg _ _ hc, ih]

/-- The ramp factor is at least one when raised to any power. -/
theorem one_le_ramp_pow (n : ℕ) : (1:ℚ) ≤ (61/50) ^ n := by
  induction n with
  | zero => norm_num
  | succ n ih => rw [pow_succ]; nlinarith

/-- The ramp factor raised to a positive power is strictly greater than one. -/
theorem one_lt_ramp_pow (n : ℕ) (hn : n ≠ 0) : (1:ℚ) < (61/50) ^ n := by
  cases n with
  | zero => exact absurd rfl hn
  | succ n => rw [pow_succ]; nlinarith [one_le_ramp_pow n]

/-- `passed` crosses a multiple-of-10 boundary while increasing by `k` exactly
when the `Nat` quotient by 10 grows. -/
theorem crossesBoundary_iff (p k : ℕ) :
    (∃ m, p < m ∧ m ≤ p + k ∧ 10 ∣ m) ↔ p / 10 < (p + k) / 10 := by
  constructor
  · rintro ⟨m, h1, h2, t, rfl⟩
    omega
  · intro h
    exact ⟨10 * (p / 10 + 1), by omega, by omega, ⟨p / 10 + 1, rfl⟩⟩

/-- On rows at or above the player (a nonnegative `player_row`), the
truncation used by the source agrees with the floor used by the spec. -/
theorem pytrunc_ge_iff_floor_ge (pr : ℤ) (hpr : 0 ≤ pr) (y : ℚ) :
    (pr + 1 ≤ pytrunc y) ↔ (pr + 1 ≤ ⌊y⌋) := by
  unfold pytrunc
  by_cases hy : 0 ≤ y
  · rw [if_pos hy]
  · rw [if_neg hy]
    have h1 : ⌈y⌉ ≤ 0 := by
      rw [Int.ceil_le]
      exact_mod_cast le_of_not_le hy
    have h2 : ⌊y⌋ ≤ ⌈y⌉ := Int.floor_le_ceil y
    omega

/-- Looking up a lane in the per-tick `lane_speeds` list is the base speed of
that lane times the global speed. -/
theorem laneSpeed_map (gs : ℚ) (i : ℕ) (hi : i < 5) :
    (BASE_LANE_SPEEDS.map (fun s => s * gs)).getD i 0
      = BASE_LANE_SPEEDS.getD i 0 * gs := by
  interval_cases i <;> simp [BASE_LANE_SPEEDS]

/-- The global speed after one tick, in closed form. -/
theorem tick_globalSpeed_eq (g : Game) (dt : ℚ) (lane : ℕ) (r : SpawnRand) :
    (tick g dt lane r).globalSpeed
      = g.globalSpeed * (61/50) ^
          ((g.passed + (movedCars g dt r).countP (passCond (playerRow g))) / 10
            - g.passed / 10) := by
  rw [tick_globalSpeed, scorePass_eq]

/-- A tick never lowers the global speed (for a nonnegative entering speed). -/
theorem tick_globalSpeed_mono (g : Game) (dt : ℚ) (lane : ℕ) (r : SpawnRand)
    (hg : 0 ≤ g.globalSpeed) :
    g.globalSpeed ≤ (tick g dt lane r).globalSpeed := by
  rw [tick_globalSpeed_eq]
  exact le_mul_of_one_le_right hg (one_le_ramp_pow _)

/-- Every reachable state has global speed at least one. -/
theorem reachable_one_le_globalSpeed (s : Game) (h : Reachable s) :
    1 ≤ s.globalSpeed := by
  induction h with
  | start h rs => norm_num [initGame]
  | step g dt lane r hg ih =>
    exact le_trans ih (tick_globalSpeed_mono g dt lane r (by linarith))

/-! ## Claims -/

/-- A dead state (`running = false`) with a pending spawn timer and one car,
used to exercise `tick` on a terminal state. -/
def deadState : Game :=
  { height := 24, spawnTimer := 1, cars := [⟨0, 0, 0⟩], passed := 0,
    globalSpeed := 1, playerLane := 2, running := false, score := 0 }

/-- C1, counterexample: `Game.update` never inspects `running`, so a tick on
a dead state is not a no-op: with `spawn_timer = 1` and `dt = 1/2` the timer
still drops to `1/2` and the state changes. -/
theorem C1_counterexample :
    deadState.running = false ∧ tick deadState (1/2) 2 sampleRand ≠ deadState := by
  refine ⟨rfl, fun hEq => ?_⟩
  have h1 : (tick deadState (1/2) 2 sampleRand).spawnTimer = 1/2 := by
    norm_num [tick_spawnTimer, spawnPhase, deadState]
  rw [hEq] at h1
  norm_num [deadState] at h1

/-- C1, amended: `tick` does not check `alive` at all.  A tick on a dead
state performs exactly the same spawning, motion, removal and scoring as the
same tick on the corresponding live state, and leaves `alive` false; the
dead-state no-op of the spec holds only because the driver loop stops calling
`update` once `running` is false. -/
theorem C1_amended_theorem (g : Game) (dt : ℚ) (lane : ℕ) (r : SpawnRand)
    (h : g.running = false) :
    tick g dt lane r
      = { tick { g with running := true } dt lane r with running := false } := by
  obtain ⟨ht, st, cs, p, gs, pl, ru, sc⟩ := g
  have hr : ru = false := h
  subst hr
  rfl

/-- C1, witness: the amended theorem applied to the concrete dead state. -/
theorem C1_witness :
    deadState.running = false ∧
      tick deadState (1/2) 2 sampleRand
        = { tick { deadState with running := true } (1/2) 2 sampleRand with
            running := false } :=
  ⟨rfl, C1_amended_theorem deadState (1/2) 2 sampleRand rfl⟩

/-- C8: in every reachable state the score, the passed count and the global
speed multiplier are nonnegative, the multiplier is at least `1.0`, and it
never decreases across a tick. -/
theorem C8_theorem (s : Game) (dt : ℚ) (lane : ℕ) (r : SpawnRand)
    (h : Reachable s) :
    1 ≤ s.globalSpeed ∧ 0 ≤ (s.score : ℤ) ∧ 0 ≤ (s.passed : ℤ)
      ∧ s.globalSpeed ≤ (tick s dt lane r).globalSpeed := by
  have h1 := reachable_one_le_globalSpeed s h
  exact ⟨h1, Int.natCast_nonneg _, Int.natCast_nonneg _,
    tick_globalSpeed_mono s dt lane r (by linarith)⟩

/-- C8, witness: the invariants at the freshly initialized state. -/
theorem C8_witness :
    Reachable (initGame 24 []) ∧
      (1 ≤ (initGame 24 []).globalSpeed ∧ 0 ≤ ((initGame 24 []).score : ℤ)
        ∧ 0 ≤ ((initGame 24 []).passed : ℤ)
        ∧ (initGame 24 []).globalSpeed
            ≤ (tick (initGame 24 []) 1 2 sampleRand).globalSpeed) :=
  ⟨Reachable.start 24 [],
    C8_theorem (initGame 24 []) 1 2 sampleRand (Reachable.start 24 [])⟩

/-- C10: in every reachable state, `score = passed`: both start at 0 and
every tick increments them together by the number of cars passed. -/
theorem C10_theorem (s : Game) (h : Reachable s) : s.score = s.passed := by
  induction h with
  | start h rs => rfl
  | step g dt lane r hg ih =>
    rw [tick_score, tick_passed, scorePass_eq]
    dsimp only
    omega

/-- C10, witness: the invariant at the freshly initialized state. -/
theorem C10_witness :
    Reachable (initGame 24 []) ∧ (initGame 24 []).score = (initGame 24 []).passed :=
  ⟨Reachable.start 24 [], C10_theorem (initGame 24 []) (Reachable.start 24 [])⟩

/-- A live state on a 13-row field (`player_row = 10`) with one car in the
player lane at `y = 9.6`, which rounds to the player row. -/
def collState : Game :=
  { height := 13, spawnTimer := 5, cars := [⟨3, 48/5, 0⟩], passed := 0,
    globalSpeed := 1, playerLane := 3, running := true, score := 0 }

/-- Like `collState` but with the car at `y = 10.6`: it neither rounds to the
player row nor has floor at least `player_row + 1`. -/
def passState : Game :=
  { height := 13, spawnTimer := 5, cars := [⟨3, 53/5, 0⟩], passed := 0,
    globalSpeed := 1, playerLane := 3, running := true, score := 0 }

/-- A live state with one car at lane 2, position `-1.0`, global speed `1.0`,
matching the worked example of the spec. -/
def speedState : Game :=
  { height := 24, spawnTimer := 2, cars := [⟨2, -1, 0⟩], passed := 0,
    globalSpeed := 1, playerLane := 2, running := true, score := 0 }

/-- C2: in a tick on a live state (on a field of height at least 3, so that
the player row is a nonnegative row index), an obstacle is removed exactly
when, after motion, the floor of its position is at least `player_row + 1`,
and `passed` and `score` each grow by exactly the number of obstacles so
removed. -/
theorem C2_theorem (g : Game) (dt : ℚ) (lane : ℕ) (r : SpawnRand)
    (_hlive : g.running = true) (hh : 3 ≤ g.height) :
    (tick g dt lane r).cars
        = (movedCars g dt r).filter (fun c => decide (⌊c.y⌋ < playerRow g + 1))
    ∧ (tick g dt lane r).passed
        = g.passed + (movedCars g dt r).countP (fun c => decide (playerRow g + 1 ≤ ⌊c.y⌋))
    ∧ (tick g dt lane r).score
        = g.score + (movedCars g dt r).countP (fun c => decide (playerRow g + 1 ≤ ⌊c.y⌋)) := by
  have hpr : 0 ≤ playerRow g := by unfold playerRow; omega
  have hpt : ∀ c : Car, (!(passCond (playerRow g) c)) = decide (⌊c.y⌋ < playerRow g + 1) := by
    intro c
    have h2 := pytrunc_ge_iff_floor_ge (playerRow g) hpr c.y
    rw [passCond, ← decide_not, decide_eq_decide, h2]
    exact not_le
  have hcnt : ∀ c : Car, passCond (playerRow g) c = decide (playerRow g + 1 ≤ ⌊c.y⌋) := by
    intro c
    rw [passCond, decide_eq_decide]
    exact pytrunc_ge_iff_floor_ge (playerRow g) hpr c.y
  refine ⟨?_, ?_, ?_⟩
  · rw [tick_cars]
    exact List.filter_congr (fun c _ => hpt c)
  · rw [tick_passed, scorePass_eq]
    dsimp only
    rw [List.countP_eq_length_filter, List.countP_eq_length_filter,
      List.filter_congr (fun c _ => hcnt c)]
  · rw [tick_score, scorePass_eq]
    dsimp only
    rw [List.countP_eq_length_filter, List.countP_eq_length_filter,
      List.filter_congr (fun c _ => hcnt c)]

/-- C2, witness: the pass-detection characterization on `collState`. -/
theorem C2_witness :
    (collState.running = true ∧ 3 ≤ collState.height) ∧
      ((tick collState 0 3 sampleRand).cars
          = (movedCars collState 0 sampleRand).filter
              (fun c => decide (⌊c.y⌋ < playerRow collState + 1))
      ∧ (tick collState 0 3 sampleRand).passed
          = collState.passed + (movedCars collState 0 sampleRand).countP
              (fun c => decide (playerRow collState + 1 ≤ ⌊c.y⌋))
      ∧ (tick collState 0 3 sampleRand).score
          = collState.score + (movedCars collState 0 sampleRand).countP
              (fun c => decide (playerRow collState + 1 ≤ ⌊c.y⌋))) :=
  ⟨⟨rfl, by norm_num [collState]⟩,
    C2_theorem collState 0 3 sampleRand rfl (by norm_num [collState])⟩

/-- C3: in a tick on a live state, `alive` is set to false exactly when some
remaining obstacle rounds to the player row in the player lane; the car of
`collState` (position `9.6`, rounds to `player_row = 10`) triggers the
collision, while the car of `passState` (position `10.6`) is neither flagged
as a collision nor removed as passed that tick. -/
theorem C3_theorem (g : Game) (dt : ℚ) (lane : ℕ) (r : SpawnRand)
    (hlive : g.running = true) :
    ((tick g dt lane r).running = false ↔
      ∃ c ∈ (tick g dt lane r).cars, pyround c.y = playerRow g ∧ c.lane = lane)
    ∧ (tick collState 0 3 sampleRand).running = false
    ∧ (tick passState 0 3 sampleRand).running = true
    ∧ (tick passState 0 3 sampleRand).cars = passState.cars := by
  refine ⟨?_, ?_, ?_, ?_⟩
  · rw [tick_running, hlive, Bool.true_and, ← tick_cars g dt lane r]
    simp only [Bool.not_eq_false', List.any_eq_true, collideCond, Bool.and_eq_true,
      decide_eq_true_eq]
  · norm_num [tick, update, movedCars, spawnPhase, mkCar, moveCar, playerRow,
      passCond, collideCond, scorePass, rampStep, pytrunc, pyround, round_eq,
      BASE_LANE_SPEEDS, SPAWN_INTERVAL, collState, sampleRand,
      List.getD_cons_succ, List.getD_cons_zero, List.filter_cons, List.foldl_cons]
  · norm_num [tick, update, movedCars, spawnPhase, mkCar, moveCar, playerRow,
      passCond, collideCond, scorePass, rampStep, pytrunc, pyround, round_eq,
      BASE_LANE_SPEEDS, SPAWN_INTERVAL, passState, sampleRand,
      List.getD_cons_succ, List.getD_cons_zero, List.filter_cons, List.foldl_cons]
  · norm_num [tick, update, movedCars, spawnPhase, mkCar, moveCar, playerRow,
      passCond, collideCond, scorePass, rampStep, pytrunc, pyround, round_eq,
      BASE_LANE_SPEEDS, SPAWN_INTERVAL, passState, sampleRand,
      List.getD_cons_succ, List.getD_cons_zero, List.filter_cons, List.foldl_cons]

/-- C3, witness: the collision characterization on `collState`. -/
theorem C3_witness :
    collState.running = true ∧
      (((tick collState 0 3 sampleRand).running = false ↔
        ∃ c ∈ (tick collState 0 3 sampleRand).cars,
          pyround c.y = playerRow collState ∧ c.lane = 3)
      ∧ (tick collState 0 3 sampleRand).running = false
      ∧ (tick passState 0 3 sampleRand).running = true
      ∧ (tick passState 0 3 sampleRand).cars = passState.cars) :=
  ⟨rfl, C3_theorem collState 0 3 sampleRand rfl⟩

/-- C4: in every tick, each obstacle (all of whose lanes are in range) is
advanced by exactly `dt * (base_lane_speed[lane] * global_speed_multiplier)`,
with the lane speeds fixed as `[0.9, 1.2, 1.6, 1.0, 1.4]` over
`LANE_COUNT = 5` lanes; the worked example at lane 2 from position `-1.0`
with `dt = 1` and multiplier `1.0` lands on `0.6`. -/
theorem C4_theorem (g : Game) (dt : ℚ) (r : SpawnRand)
    (h : ∀ c ∈ (spawnPhase g dt r).2, c.lane < LANE_COUNT) :
    BASE_LANE_SPEEDS = [9/10, 6/5, 8/5, 1, 7/5]
    ∧ BASE_LANE_SPEEDS.length = LANE_COUNT
    ∧ movedCars g dt r = (spawnPhase g dt r).2.map
        (fun c => { c with y := c.y + dt * (BASE_LANE_SPEEDS.getD c.lane 0 * g.globalSpeed) })
    ∧ (tick speedState 1 2 sampleRand).cars = [⟨2, 3/5, 0⟩] := by
  refine ⟨rfl, rfl, ?_, ?_⟩
  · unfold movedCars
    refine List.map_congr_left (fun c hc => ?_)
    have h5 : c.lane < 5 := h c hc
    rw [moveCar, laneSpeed_map _ _ h5]
    simp only [Car.mk.injEq, true_and, and_true]
    ring
  · norm_num [tick, update, movedCars, spawnPhase, mkCar, moveCar, playerRow,
      passCond, collideCond, scorePass, rampStep, pytrunc, pyround, round_eq,
      BASE_LANE_SPEEDS, SPAWN_INTERVAL, speedState, sampleRand,
      List.getD_cons_succ, List.getD_cons_zero, List.filter_cons, List.foldl_cons]

/-- C4, witness: the motion characterization on `speedState`. -/
theorem C4_witness :
    (∀ c ∈ (spawnPhase speedState 1 sampleRand).2, c.lane < LANE_COUNT) ∧
      (BASE_LANE_SPEEDS = [9/10, 6/5, 8/5, 1, 7/5]
      ∧ BASE_LANE_SPEEDS.length = LANE_COUNT
      ∧ movedCars speedState 1 sampleRand = (spawnPhase speedState 1 sampleRand).2.map
          (fun c => { c with
            y := c.y + 1 * (BASE_LANE_SPEEDS.getD c.lane 0 * speedState.globalSpeed) })
      ∧ (tick speedState 1 2 sampleRand).cars = [⟨2, 3/5, 0⟩]) := by
  have h : ∀ c ∈ (spawnPhase speedState 1 sampleRand).2, c.lane < LANE_COUNT := by
    norm_num [spawnPhase, speedState, LANE_COUNT]
  exact ⟨h, C4_theorem speedState 1 sampleRand h⟩

/-- A live state with `passed = 9` and one car about to pass, so that the
tick crosses the multiple-of-10 boundary. -/
def rampState : Game :=
  { height := 13, spawnTimer := 5, cars := [⟨0, 12, 0⟩], passed := 9,
    globalSpeed := 1, playerLane := 2, running := true, score := 9 }

/-- C5: the global speed after a tick is the entering speed times `1.22`
raised to the number of multiples of 10 that `passed` reaches during that
tick (`k` passing cars move `passed` from `g.passed` to `g.passed + k`); it
strictly increases exactly when a multiple-of-10 boundary is crossed and is
unchanged otherwise. -/
theorem C5_theorem (g : Game) (dt : ℚ) (lane : ℕ) (r : SpawnRand) (k : ℕ)
    (hg : 0 < g.globalSpeed)
    (hk : k = (movedCars g dt r).countP (passCond (playerRow g))) :
    (tick g dt lane r).globalSpeed
        = g.globalSpeed * (61/50) ^ ((g.passed + k) / 10 - g.passed / 10)
    ∧ ((∃ m, g.passed < m ∧ m ≤ g.passed + k ∧ 10 ∣ m) →
        g.globalSpeed < (tick g dt lane r).globalSpeed)
    ∧ ((¬∃ m, g.passed < m ∧ m ≤ g.passed + k ∧ 10 ∣ m) →
        (tick g dt lane r).globalSpeed = g.globalSpeed) := by
  subst hk
  refine ⟨tick_globalSpeed_eq g dt lane r, fun hex => ?_, fun hex => ?_⟩
  · rw [crossesBoundary_iff] at hex
    rw [tick_globalSpeed_eq]
    have hne : ((g.passed + (movedCars g dt r).countP (passCond (playerRow g))) / 10
        - g.passed / 10) ≠ 0 := by omega
    exact lt_mul_of_one_lt_right hg (one_lt_ramp_pow _ hne)
  · rw [crossesBoundary_iff] at hex
    rw [tick_globalSpeed_eq]
    have h0 : ((g.passed + (movedCars g dt r).countP (passCond (playerRow g))) / 10
        - g.passed / 10) = 0 := by omega
    rw [h0, pow_zero, mul_one]

/-- C5, witness: a tick of `rampState` crosses the boundary from 9 to 10
passed cars. -/
theorem C5_witness :
    (0 < rampState.globalSpeed
      ∧ 1 = (movedCars rampState 0 sampleRand).countP (passCond (playerRow rampState))) ∧
      ((tick rampState 0 2 sampleRand).globalSpeed
          = rampState.globalSpeed
              * (61/50) ^ ((rampState.passed + 1) / 10 - rampState.passed / 10)
      ∧ ((∃ m, rampState.passed < m ∧ m ≤ rampState.passed + 1 ∧ 10 ∣ m) →
          rampState.globalSpeed < (tick rampState 0 2 sampleRand).globalSpeed)
      ∧ ((¬∃ m, rampState.passed < m ∧ m ≤ rampState.passed + 1 ∧ 10 ∣ m) →
          (tick rampState 0 2 sampleRand).globalSpeed = rampState.globalSpeed)) := by
  have hk : (1:ℕ)
      = (movedCars rampState 0 sampleRand).countP (passCond (playerRow rampState)) := by
    norm_num [movedCars, spawnPhase, moveCar, mkCar, playerRow, passCond, pytrunc,
      BASE_LANE_SPEEDS, rampState, sampleRand, List.getD_cons_zero,
      List.countP_cons, List.countP_nil]
  exact ⟨⟨by norm_num [rampState], hk⟩,
    C5_theorem rampState 0 2 sampleRand 1 (by norm_num [rampState]) hk⟩

/-- C6: each tick decrements the spawn timer by `dt`; exactly one new car is
appended when the decremented timer is `≤ 0`, in which case the timer is
reset to the drawn value; with the draw in `[0.6 I, 1.4 I]` for
`I = max(0.15, 0.8 / (global_speed * 0.9))` the reset value is strictly
positive. -/
theorem C6_theorem (g : Game) (dt : ℚ) (lane : ℕ) (r : SpawnRand)
    (hlo : (3/5) * spawnInterval g.globalSpeed ≤ r.timer)
    (_hhi : r.timer ≤ (7/5) * spawnInterval g.globalSpeed) :
    (tick g dt lane r).spawnTimer = (spawnPhase g dt r).1
    ∧ spawnInterval g.globalSpeed
        = max (3/20) ((4/5) / (g.globalSpeed * (9/10)))
    ∧ (g.spawnTimer - dt ≤ 0 →
        (spawnPhase g dt r).2 = g.cars ++ [mkCar r]
        ∧ (spawnPhase g dt r).1 = r.timer
        ∧ 0 < (spawnPhase g dt r).1)
    ∧ (0 < g.spawnTimer - dt →
        (spawnPhase g dt r).2 = g.cars
        ∧ (spawnPhase g dt r).1 = g.spawnTimer - dt) := by
  have hI : (3/20 : ℚ) ≤ spawnInterval g.globalSpeed := le_max_left _ _
  refine ⟨tick_spawnTimer g dt lane r, rfl, fun hs => ?_, fun hs => ?_⟩
  · have h2 : spawnPhase g dt r = (r.timer, g.cars ++ [mkCar r]) := by
      simp only [spawnPhase, if_pos hs]
    rw [h2]
    exact ⟨rfl, rfl, by linarith⟩
  · have h2 : spawnPhase g dt r = (g.spawnTimer - dt, g.cars) := by
      simp only [spawnPhase, if_neg (not_le.mpr hs)]
    rw [h2]
    exact ⟨rfl, rfl⟩

/-- A sample draw whose timer lies in the admissible spawn interval for
global speed `1.0` (for which `I = 8/9`). -/
def spawnDraw : SpawnRand := ⟨1, 1, 2, 8/9⟩

/-- C6, witness: the spawn contract on the freshly initialized state, whose
timer `0` triggers a spawn on the first tick. -/
theorem C6_witness :
    ((3/5) * spawnInterval (initGame 24 []).globalSpeed ≤ spawnDraw.timer
      ∧ spawnDraw.timer ≤ (7/5) * spawnInterval (initGame 24 []).globalSpeed) ∧
      ((tick (initGame 24 []) 1 2 spawnDraw).spawnTimer
          = (spawnPhase (initGame 24 []) 1 spawnDraw).1
      ∧ spawnInterval (initGame 24 []).globalSpeed
          = max (3/20) ((4/5) / ((initGame 24 []).globalSpeed * (9/10)))
      ∧ ((initGame 24 []).spawnTimer - 1 ≤ 0 →
          (spawnPhase (initGame 24 []) 1 spawnDraw).2
              = (initGame 24 []).cars ++ [mkCar spawnDraw]
          ∧ (spawnPhase (initGame 24 []) 1 spawnDraw).1 = spawnDraw.timer
          ∧ 0 < (spawnPhase (initGame 24 []) 1 spawnDraw).1)
      ∧ (0 < (initGame 24 []).spawnTimer - 1 →
          (spawnPhase (initGame 24 []) 1 spawnDraw).2 = (initGame 24 []).cars
          ∧ (spawnPhase (initGame 24 []) 1 spawnDraw).1
              = (initGame 24 []).spawnTimer - 1)) := by
  have hlo : (3/5) * spawnInterval (initGame 24 []).globalSpeed ≤ spawnDraw.timer := by
    norm_num [spawnInterval, SPAWN_INTERVAL, initGame, spawnDraw, max_def]
  have hhi : spawnDraw.timer ≤ (7/5) * spawnInterval (initGame 24 []).globalSpeed := by
    norm_num [spawnInterval, SPAWN_INTERVAL, initGame, spawnDraw, max_def]
  exact ⟨⟨hlo, hhi⟩, C6_theorem (initGame 24 []) 1 2 spawnDraw hlo hhi⟩

/-- A car in the player lane at `y = -0.6`: on a field of height 2
(`player_row = -1`) it satisfies the pass condition and the collision
condition at once. -/
def bothCar : Car := ⟨2, -3/5, 0⟩

/-- A live state holding `bothCar`, used to show pass detection shields
collision detection. -/
def bothState : Game :=
  { height := 2, spawnTimer := 5, cars := [bothCar], passed := 0,
    globalSpeed := 1, playerLane := 2, running := true, score := 0 }

/-- C7: within one tick, `alive` becomes false exactly when some moved car
that was NOT removed by pass detection satisfies the collision condition;
`bothCar` satisfies both conditions at once, is removed by pass detection,
and therefore does not end the run. -/
theorem C7_theorem (g : Game) (dt : ℚ) (lane : ℕ) (r : SpawnRand)
    (hlive : g.running = true) :
    ((tick g dt lane r).running = false ↔
      ∃ c ∈ movedCars g dt r,
        passCond (playerRow g) c = false ∧ collideCond (playerRow g) lane c = true)
    ∧ passCond (playerRow bothState) bothCar = true
    ∧ collideCond (playerRow bothState) 2 bothCar = true
    ∧ (tick bothState 0 2 sampleRand).running = true
    ∧ (tick bothState 0 2 sampleRand).cars = [] := by
  have hc : (⌈(-(3/5) : ℚ)⌉) = 0 := by norm_num
  have hfl : (⌊(-(3/5) : ℚ)⌋) = -1 := by norm_num
  have hfr : Int.fract (-(3/5) : ℚ) = 2/5 := by norm_num [Int.fract]
  have hrd : round (-(3/5) : ℚ) = -1 := by norm_num [round_eq]
  refine ⟨?_, ?_, ?_, ?_, ?_⟩
  · rw [tick_running, hlive, Bool.true_and]
    simp only [Bool.not_eq_false', List.any_eq_true, List.mem_filter, Bool.not_eq_true']
    tauto
  · norm_num [passCond, playerRow, bothState, bothCar, pytrunc, hc]
  · norm_num [collideCond, playerRow, bothState, bothCar, pyround, hc, hfl, hfr, hrd]
  · norm_num [tick, update, movedCars, spawnPhase, mkCar, moveCar, playerRow,
      passCond, collideCond, scorePass, rampStep, pytrunc, pyround,
      BASE_LANE_SPEEDS, SPAWN_INTERVAL, bothState, bothCar, sampleRand,
      List.getD_cons_succ, List.getD_cons_zero, List.filter_cons, List.foldl_cons,
      hc, hfl, hfr, hrd]
  · norm_num [tick, update, movedCars, spawnPhase, mkCar, moveCar, playerRow,
      passCond, collideCond, scorePass, rampStep, pytrunc, pyround,
      BASE_LANE_SPEEDS, SPAWN_INTERVAL, bothState, bothCar, sampleRand,
      List.getD_cons_succ, List.getD_cons_zero, List.filter_cons, List.foldl_cons,
      hc, hfl, hfr, hrd]

/-- C7, witness: the ordering guarantee on `bothState`. -/
theorem C7_witness :
    bothState.running = true ∧
      (((tick bothState 0 2 sampleRand).running = false ↔
        ∃ c ∈ movedCars bothState 0 sampleRand,
          passCond (playerRow bothState) c = false
            ∧ collideCond (playerRow bothState) 2 c = true)
      ∧ passCond (playerRow bothState) bothCar = true
      ∧ collideCond (playerRow bothState) 2 bothCar = true
      ∧ (tick bothState 0 2 sampleRand).running = true
      ∧ (tick bothState 0 2 sampleRand).cars = []) :=
  ⟨rfl, C7_theorem bothState 0 2 sampleRand rfl⟩

/-- A possible set of draws with distance exactly 0: `random.uniform(0.0, 8)`
can return `0.0`. -/
def zeroRand : SpawnRand := ⟨1, 0, 0, 1⟩

/-- C9, counterexample: a valid draw with distance 0 yields a spawned car at
position exactly 0, which is not strictly negative, and an initialized state
seeded from such draws has a car with position not `< 0`. -/
theorem C9_counterexample :
    zeroRand.Valid ∧ (mkCar zeroRand).y = 0 ∧ ¬((mkCar zeroRand).y < 0)
    ∧ (initGame 24 (List.replicate 6 zeroRand)).cars.length = 6
    ∧ ¬(∀ c ∈ (initGame 24 (List.replicate 6 zeroRand)).cars, c.y < 0) := by
  refine ⟨⟨by norm_num [zeroRand, LANE_COUNT], by norm_num [zeroRand, CAR_CHARS],
    by norm_num [zeroRand], by norm_num [zeroRand, INITIAL_DISTANCE_MAX]⟩,
    by norm_num [mkCar, zeroRand], by norm_num [mkCar, zeroRand],
    by simp [initGame], ?_⟩
  intro hall
  have hm : mkCar zeroRand ∈ (initGame 24 (List.replicate 6 zeroRand)).cars := by
    simp [initGame, List.mem_map]
  have := hall (mkCar zeroRand) hm
  norm_num [mkCar, zeroRand] at this

/-- C9, amended: every spawned car has its lane in `[0, LANE_COUNT)`, its
kind an index into the fixed kind set, and position `-dist ≤ 0` for the
drawn distance `dist` in `[0, MAX_INITIAL_DISTANCE]` — strictly negative
whenever the drawn distance is nonzero; after initialization with six valid
draws the collection has exactly 6 cars, each with lane in range and
position `≤ 0`. -/
theorem C9_amended_theorem (r : SpawnRand) (h : ℕ) (rs : List SpawnRand)
    (hr : r.Valid) (hrs : ∀ q ∈ rs, q.Valid) (hlen : rs.length = 6) :
    (mkCar r).lane < LANE_COUNT ∧ (mkCar r).art < CAR_CHARS.length
    ∧ (mkCar r).y = -r.dist ∧ (mkCar r).y ≤ 0 ∧ (0 < r.dist → (mkCar r).y < 0)
    ∧ (initGame h rs).cars.length = 6
    ∧ ∀ c ∈ (initGame h rs).cars, c.lane < LANE_COUNT ∧ c.y ≤ 0 := by
  obtain ⟨h1, h2, h3, h4⟩ := hr
  refine ⟨h1, h2, rfl, ?_, fun hd => ?_, ?_, ?_⟩
  · simp only [mkCar]
    linarith
  · simp only [mkCar]
    linarith
  · simp [initGame, hlen]
  · intro c hc
    simp only [initGame, List.mem_map] at hc
    obtain ⟨q, hq, rfl⟩ := hc
    obtain ⟨q1, q2, q3, q4⟩ := hrs q hq
    refine ⟨q1, ?_⟩
    simp only [mkCar]
    linarith

/-- A valid draw with a strictly positive distance. -/
def validRand : SpawnRand := ⟨1, 1, 2, 1⟩

/-- C9, witness: the amended spawn contract on six copies of a valid draw. -/
theorem C9_witness :
    (validRand.Valid ∧ (∀ q ∈ List.replicate 6 validRand, q.Valid)
      ∧ (List.replicate 6 validRand).length = 6) ∧
      ((mkCar validRand).lane < LANE_COUNT
      ∧ (mkCar validRand).art < CAR_CHARS.length
      ∧ (mkCar validRand).y = -validRand.dist
      ∧ (mkCar validRand).y ≤ 0
      ∧ (0 < validRand.dist → (mkCar validRand).y < 0)
      ∧ (initGame 24 (List.replicate 6 validRand)).cars.length = 6
      ∧ ∀ c ∈ (initGame 24 (List.replicate 6 validRand)).cars,
          c.lane < LANE_COUNT ∧ c.y ≤ 0) := by
  have hv : validRand.Valid := by
    refine ⟨?_, ?_, ?_, ?_⟩ <;>
      norm_num [validRand, LANE_COUNT, CAR_CHARS, INITIAL_DISTANCE_MAX]
  have hall : ∀ q ∈ List.replicate 6 validRand, q.Valid := by
    intro q hq
    rw [List.eq_of_mem_replicate hq]
    exact hv
  exact ⟨⟨hv, hall, rfl⟩,
    C9_amended_theorem validRand 24 (List.replicate 6 validRand) hv hall rfl⟩

end Kerplunk
